import Mathlib

/-!
Shallow embedding of the provisioning / deprovisioning core of the
Marzban-Manager backend, and proofs about it.

Embedded modules:
* `backend/app/clients/node_manager_client.py` — ANSI stripping, install
  command construction, install-output parsing, the install flow;
* `backend/app/clients/marzban_client.py` — token expiry and the HTTP
  retry loop `MarzbanClient._request`;
* `backend/app/clients/ssh_client.py` — authentication selection in
  `SSHClient._connect_sync`;
* `backend/app/services/node_service.py` — `NodeService.delete_node`;
* `backend/app/services/ssh_install_service.py` —
  `SSHInstallService._run_installation` (ports / auto_ports dataflow);
* `backend/app/services/job_manager.py` — `Job` mutators and the
  manager-invoked transitions of `run_job` / `cancel_job`.

Machine integers are modelled as `Nat`/`Int` (Python ints are unbounded),
strings as `String`/`List Char`, fallible calls as `Except`, and the
behaviour of external collaborators (HTTP responses, SSH command results)
as explicit oracles passed to the embedded control flow.
-/

namespace Marzban

/-! ### Character classes of the regular expressions in `node_manager_client.py`

Python `\s` and `\d` are modelled on their ASCII fragment, which is the
alphabet the CLI output contract (`spec.md` §6) uses. -/

/-- The ESC character `\x1B` that starts every ANSI escape sequence. -/
def escCh : Char := Char.ofNat 0x1B

/-- Python regex `\s` (ASCII fragment): space, tab, newline, carriage
return, vertical tab, form feed. -/
def isPySpace (c : Char) : Bool :=
  decide (c = ' ' ∨ c = '\t' ∨ c = '\n' ∨ c = '\r' ∨ c.toNat = 0x0B ∨ c.toNat = 0x0C)

/-- Python regex `\d` (ASCII fragment): decimal digits. -/
def isPyDigit (c : Char) : Bool :=
  decide (0x30 ≤ c.toNat ∧ c.toNat ≤ 0x39)

/-- Character class `[@-Z\\-_]`: the single-character escape tails of the
ANSI pattern in `NodeManagerClient._strip_ansi`. -/
def isEscSingle (c : Char) : Bool :=
  decide ((0x40 ≤ c.toNat ∧ c.toNat ≤ 0x5A) ∨ (0x5C ≤ c.toNat ∧ c.toNat ≤ 0x5F))

/-- Character class `[0-?]`: CSI parameter bytes. -/
def isCsiParam (c : Char) : Bool :=
  decide (0x30 ≤ c.toNat ∧ c.toNat ≤ 0x3F)

/-- Character class of the CSI intermediate bytes 0x20-0x2F. -/
def isCsiInter (c : Char) : Bool :=
  decide (0x20 ≤ c.toNat ∧ c.toNat ≤ 0x2F)

/-- Character class `[@-~]`: CSI final bytes. -/
def isCsiFinal (c : Char) : Bool :=
  decide (0x40 ≤ c.toNat ∧ c.toNat ≤ 0x7E)

/-! ### `NodeManagerClient._strip_ansi` (node_manager_client.py 248-251)

The pattern is ESC followed by either a single byte in 0x40-0x5A/0x5C-0x5F
or by a CSI body (a literal bracket, then parameter bytes 0x30-0x3F, then
intermediate bytes 0x20-0x2F, then one final byte 0x40-0x7E), substituted
by the empty string, leftmost non-overlapping.  Inside the CSI body the
three classes are pairwise disjoint, so the greedy maximal-munch scan below
is exactly the regex engine's behaviour (no backtracking can succeed where
maximal munch fails). -/

/-- Length of the escape sequence tail starting right after an ESC
character, following the alternation of the pattern; `none` when the ESC
does not open a match. -/
def escSeqLen (rest : List Char) : Option Nat :=
  match rest with
  | [] => none
  | c :: tail =>
    if isEscSingle c then some 1
    else if c = '[' then
      let ps := tail.takeWhile isCsiParam
      let t2 := tail.drop ps.length
      let ins := t2.takeWhile isCsiInter
      let t3 := t2.drop ins.length
      match t3 with
      | [] => none
      | f :: _ => if isCsiFinal f then some (1 + ps.length + ins.length + 1) else none
    else none

/-- One fuelled pass of `re.sub`: at every position, if an ESC opens a
match the whole match is dropped, otherwise the character is kept.  Fuel
bounds the recursion; `stripAnsiChars` supplies fuel equal to the input
length, which suffices because every step consumes at least one
character. -/
def stripAnsiGo : Nat → List Char → List Char
  | 0, _ => []
  | _ + 1, [] => []
  | fuel + 1, c :: rest =>
    if c = escCh then
      match escSeqLen rest with
      | some n => stripAnsiGo fuel (rest.drop n)
      | none => c :: stripAnsiGo fuel rest
    else c :: stripAnsiGo fuel rest

/-- `_strip_ansi` on a character list. -/
def stripAnsiChars (l : List Char) : List Char :=
  stripAnsiGo l.length l

/-- `NodeManagerClient._strip_ansi`. -/
def stripAnsi (s : String) : String :=
  String.mk (stripAnsiChars s.data)

/-! ### Labelled-number search (`re.search(r"SERVICE_PORT:\s+(\d+)", ...)`)

`\s+` and `\d+` are over disjoint classes, so at a given start position the
match is the literal label, then the maximal nonempty whitespace run, then
the maximal nonempty digit run; `re.search` takes the leftmost start
position at which this succeeds. -/

/-- Numeric value of a digit list (the regex guarantees nonemptiness). -/
def digitsToNat (ds : List Char) : Nat :=
  ds.foldl (fun a c => 10 * a + (c.toNat - 0x30)) 0

/-- Try to match `label` + `\s+` + `(\d+)` at the head of `s`. -/
def matchLabelNumAt (label s : List Char) : Option Nat :=
  if s.take label.length = label then
    let rest := s.drop label.length
    let sp := rest.takeWhile isPySpace
    if sp = [] then none
    else
      let r2 := rest.drop sp.length
      let ds := r2.takeWhile isPyDigit
      if ds = [] then none else some (digitsToNat ds)
  else none

/-- Leftmost search for `label\s+(\d+)`, as `re.search` does. -/
def searchLabelNum (label : List Char) : List Char → Option Nat
  | [] => none
  | c :: rest =>
    match matchLabelNumAt label (c :: rest) with
    | some n => some n
    | none => searchLabelNum label rest

/-- Try to match `label` + `\s+` + `(\S+)` at the head of `s`
(for `Install Dir:` / `Data Dir:`). -/
def matchLabelStrAt (label s : List Char) : Option (List Char) :=
  if s.take label.length = label then
    let rest := s.drop label.length
    let sp := rest.takeWhile isPySpace
    if sp = [] then none
    else
      let r2 := rest.drop sp.length
      let ws := r2.takeWhile (fun c => !isPySpace c)
      if ws = [] then none else some ws
  else none

/-- Leftmost search for `label\s+(\S+)`. -/
def searchLabelStr (label : List Char) : List Char → Option (List Char)
  | [] => none
  | c :: rest =>
    match matchLabelStrAt label (c :: rest) with
    | some w => some w
    | none => searchLabelStr label rest

/-- Match `\s*` then the dotted quad `(\d+\.\d+\.\d+\.\d+)` at the head of
`rest` (the tail of `Use this IP.*?:\s*(...)` after a colon). -/
def ipAfterColon (rest : List Char) : Option (List Char) :=
  let r1 := rest.drop (rest.takeWhile isPySpace).length
  let g1 := r1.takeWhile isPyDigit
  if g1 = [] then none else
  match r1.drop g1.length with
  | '.' :: r2 =>
    let g2 := r2.takeWhile isPyDigit
    if g2 = [] then none else
    match r2.drop g2.length with
    | '.' :: r3 =>
      let g3 := r3.takeWhile isPyDigit
      if g3 = [] then none else
      match r3.drop g3.length with
      | '.' :: r4 =>
        let g4 := r4.takeWhile isPyDigit
        if g4 = [] then none
        else some (g1 ++ '.' :: g2 ++ '.' :: g3 ++ '.' :: g4)
      | _ => none
    | _ => none
  | _ => none

/-- Lazy `.*?:` scan: find the first colon on the current line whose tail
matches `\s*(\d+\.\d+\.\d+\.\d+)`; `.` does not cross a newline. -/
def searchColonIp : List Char → Option (List Char)
  | [] => none
  | c :: rest =>
    if c = '\n' then none
    else if c = ':' then
      match ipAfterColon rest with
      | some ip => some ip
      | none => searchColonIp rest
    else searchColonIp rest

/-- Leftmost search for `Use this IP.*?:\s*(\d+\.\d+\.\d+\.\d+)`. -/
def searchUseIp : List Char → Option (List Char)
  | [] => none
  | c :: rest =>
    if (c :: rest).take 11 = "Use this IP".data then
      match searchColonIp ((c :: rest).drop 11) with
      | some ip => some ip
      | none => searchUseIp rest
    else searchUseIp rest

/-- Python `str.strip()` on the default (whitespace) character set. -/
def pyStrip (l : List Char) : List Char :=
  ((l.dropWhile isPySpace).reverse.dropWhile isPySpace).reverse

/-- A single quote character, used when the embedded code reproduces the
quoting of the Python f-strings. -/
def sq : Char := Char.ofNat 0x27

/-- Wrap a string in single quotes, as several Python f-strings do. -/
def sqWrap (s : String) : String :=
  String.singleton sq ++ s ++ String.singleton sq

/-! ### `CommandResult` (ssh_client.py 24-34) and `InstallResult`
(node_manager_client.py 17-27) -/

/-- Result of one remote command (`ssh_client.CommandResult`). -/
structure CommandResult where
  stdout : String
  stderr : String
  exit_code : Int
deriving DecidableEq

/-- Result of a node installation (`node_manager_client.InstallResult`).
Ports are `Nat` (parsed from digit runs or taken from the request). -/
structure InstallResult where
  success : Bool
  node_name : String
  service_port : Nat
  api_port : Nat
  install_dir : Option String
  data_dir : Option String
  public_ip : Option String
  error : Option String
deriving DecidableEq

/-- The label before the service port in the CLI output. -/
def serviceLabel : List Char := "SERVICE_PORT:".data

/-- The label before the Xray API port in the CLI output. -/
def apiLabel : List Char := "XRAY_API_PORT:".data

/-- `NodeManagerClient._parse_install_output` (node_manager_client.py
166-246): concatenate stdout and stderr, strip ANSI sequences first, parse
the two port labels (falling back to the requested ports), and branch on
the exit code.  On a non-zero exit code the error message is
`clean_output.strip() or "Installation failed"`. -/
def parseInstallOutput (result : CommandResult) (name : String)
    (service_port api_port : Nat) : InstallResult :=
  let output := result.stdout ++ result.stderr
  let clean := stripAnsiChars output.data
  let actual_service_port := (searchLabelNum serviceLabel clean).getD service_port
  let actual_api_port := (searchLabelNum apiLabel clean).getD api_port
  if result.exit_code ≠ 0 then
    let t := pyStrip clean
    let err := if t = [] then "Installation failed" else String.mk t
    { success := false, node_name := name,
      service_port := actual_service_port, api_port := actual_api_port,
      install_dir := none, data_dir := none, public_ip := none,
      error := some err }
  else
    { success := true, node_name := name,
      service_port := actual_service_port, api_port := actual_api_port,
      install_dir := (searchLabelStr "Install Dir:".data clean).map String.mk,
      data_dir := (searchLabelStr "Data Dir:".data clean).map String.mk,
      public_ip := (searchUseIp clean).map String.mk,
      error := none }

/-! ### Install command construction and the install flow
(`NodeManagerClient.install_node`, node_manager_client.py 104-164) -/

/-- The remote path of the temporary certificate file for node `name`. -/
def certPath (name : String) : String :=
  "/tmp/ssl_cert_" ++ name ++ ".pem"

/-- The command `install_node` builds (node_manager_client.py 147-155):
port flags are added only when `auto_ports` is false, and the inbound list
is joined with commas when truthy (non-empty). -/
def buildInstallCmd (name : String) (cert_path : String) (method : String)
    (service_port api_port : Nat) (inbounds : Option (List String))
    (auto_ports : Bool) : String :=
  let cmd := "marzban-node-manager install -n " ++ name ++ " -c " ++ cert_path
      ++ " -m " ++ method ++ " -y"
  let cmd := if auto_ports then cmd
      else cmd ++ " -s " ++ toString service_port ++ " -x " ++ toString api_port
  match inbounds with
  | some l =>
      if l ≠ [] then cmd ++ " -i " ++ sqWrap (String.intercalate "," l) else cmd
  | none => cmd

/-- Observable SSH interactions of the embedded install flow. -/
inductive SSHEvent where
  | exec (cmd : String)
  | upload (path : String) (mode : Nat)
deriving DecidableEq

/-- Behaviour of one remote command: either a `CommandResult` is returned,
or the call raises (timeouts, `SSHCommandError`, `SSHClientError`). -/
inductive ExecBehavior where
  | returns (r : CommandResult)
  | raises (msg : String)
deriving DecidableEq

/-- The `which marzban-node-manager` probe (node_manager_client.py 65-68). -/
def whichCmd : String := "which marzban-node-manager"

/-- The CLI bootstrap command (node_manager_client.py 80-83). -/
def installCliCmd : String :=
  "curl -sSL https://raw.githubusercontent.com/DrSaeedHub/Marzban-node-manager/main/install-cli.sh | bash"

/-- `NodeManagerClient.install_node` (node_manager_client.py 104-164) as a
trace semantics.  `execB` gives the behaviour of each remote command and
`uploadOk` whether the SFTP upload succeeds.  The returned value is the
raised message or the parsed `InstallResult`, paired with the ordered list
of SSH interactions that were issued.  Faithful control flow: the CLI
probe, the optional bootstrap and re-probe, the certificate upload with
mode `0o600`, the install command, then the `rm -f` cleanup — which in the
source is NOT inside a try/finally, so it is reached only when the install
command returns a `CommandResult`. -/
inductive CliEnsure where
  | raised (m : String) (tr : List SSHEvent)
  | bootstrapFailed (tr : List SSHEvent)
  | ready (tr : List SSHEvent)
deriving DecidableEq

/-- The `is_cli_installed` probe plus the `install_cli` bootstrap
(node_manager_client.py 65-90 and 131-140): probe; when absent, run the
bootstrap script and re-probe; `bootstrapFailed` corresponds to
`install_cli` returning `False`.  The oracle `execB` is indexed by the
number of remote commands issued so far (so the re-probe may answer
differently from the first probe); the returned `Nat` is the next index. -/
def ensureCli (execB : Nat → ExecBehavior) : CliEnsure × Nat :=
  let probe : List SSHEvent := [.exec whichCmd]
  match execB 0 with
  | .raises m => (.raised m probe, 1)
  | .returns r0 =>
    if r0.exit_code = 0 then (.ready probe, 1)
    else
      match execB 1 with
      | .raises m => (.raised m (probe ++ [.exec installCliCmd]), 2)
      | .returns r1 =>
        if r1.exit_code ≠ 0 then
          (.bootstrapFailed (probe ++ [.exec installCliCmd]), 2)
        else
          match execB 2 with
          | .raises m => (.raised m (probe ++ [.exec installCliCmd, .exec whichCmd]), 3)
          | .returns r2 =>
            if r2.exit_code = 0 then
              (.ready (probe ++ [.exec installCliCmd, .exec whichCmd]), 3)
            else
              (.bootstrapFailed (probe ++ [.exec installCliCmd, .exec whichCmd]), 3)

def installNodeRun (name certificate : String) (service_port api_port : Nat)
    (method : String) (inbounds : Option (List String)) (auto_ports : Bool)
    (execB : Nat → ExecBehavior) (uploadOk : Bool) :
    Except String InstallResult × List SSHEvent :=
  let _ := certificate
  match ensureCli execB with
  | (.raised m tr, _) => (.error m, tr)
  | (.bootstrapFailed tr, _) =>
      (.ok { success := false, node_name := name,
             service_port := service_port, api_port := api_port,
             install_dir := none, data_dir := none, public_ip := none,
             error := some "Failed to install CLI" }, tr)
  | (.ready tr0, n) =>
      let tr1 := tr0 ++ [.upload (certPath name) 0o600]
      if !uploadOk then (.error "UPLOAD_FAILED", tr1)
      else
        let cmd := buildInstallCmd name (certPath name) method service_port api_port inbounds auto_ports
        let tr2 := tr1 ++ [.exec cmd]
        match execB n with
        | .raises m => (.error m, tr2)
        | .returns r =>
          let rmCmd := "rm -f " ++ certPath name
          let tr3 := tr2 ++ [.exec rmCmd]
          match execB (n + 1) with
          | .raises m => (.error m, tr3)
          | .returns _ => (.ok (parseInstallOutput r name service_port api_port), tr3)

/-! ### `TokenInfo.is_expired` (marzban_client.py 20-30)

Times are seconds as `Int`; `timedelta(minutes=5)` is 300 seconds and
`datetime.utcnow() >= expires_at - timedelta(minutes=5)` is the comparison
below.  A token without a known expiry is never expired. -/

/-- `TokenInfo.is_expired`, with `now` passed explicitly. -/
def tokenIsExpired (now : Int) (expires_at : Option Int) : Bool :=
  match expires_at with
  | none => false
  | some e => decide (e - 5 * 60 ≤ now)

/-! ### `SSHClient._connect_sync` authentication selection
(ssh_client.py 98-144)

The method first builds the keyword arguments, then branches on Python
truthiness of `private_key` and `password`; when neither is truthy it
raises `SSHConnectionError("No authentication method provided")` before
`self._client.connect` is ever called, so `.error` here means no network
connection was attempted. -/

/-- Which credential the paramiko connect call would use. -/
inductive AuthMethod where
  | pkey
  | password
deriving DecidableEq

/-- Python truthiness of an optional string. -/
def truthy : Option String → Bool
  | none => false
  | some s => decide (s ≠ "")

/-- Authentication selection of `_connect_sync`: `.ok` means the network
connect call is reached with the given method, `.error` the message of the
`SSHConnectionError` raised before any connection attempt. -/
def connectSyncAuth (password private_key : Option String) :
    Except String AuthMethod :=
  if truthy private_key then .ok .pkey
  else if truthy password then .ok .password
  else .error "No authentication method provided"

/-! ### `MarzbanClient._request` (marzban_client.py 187-272)

One loop iteration issues one HTTP attempt; its outcome is drawn from an
oracle `Nat → Attempt` indexed by the number of attempts issued so far.
The classification mirrors the source exactly:
* 401: with `retry_auth` a single re-authentication (assumed to succeed)
  followed by one recursive call with `retry_auth=False`; without
  `retry_auth` an immediate `MarzbanAuthError`;
* 404: immediate `MarzbanNotFoundError` (re-raised by the dedicated
  except clause);
* status ≥ 500: `MarzbanServerError` is raised — it matches NONE of the
  except clauses (they catch only `httpx` errors plus
  `MarzbanAuthError`/`MarzbanNotFoundError`), so it propagates at once
  with no backoff and no further attempt;
* other status ≥ 400: `response.raise_for_status()` raises
  `httpx.HTTPStatusError`, caught and retried;
* timeouts and network errors: caught and retried;
* retried iterations sleep `2^attempt` seconds unless the attempt was the
  last one; when all attempts are used the last observed error is raised
  (`MarzbanConnectionError("Max retries exceeded")` if none). -/

/-- Outcome of one HTTP attempt: status carries whether the body is
non-empty (the source returns parsed JSON or `None`). -/
inductive Attempt where
  | timeout
  | netError
  | resp (status : Nat) (content : Bool)
deriving DecidableEq

/-- Error classes of `marzban_client.py` (33-55). -/
inductive MErr where
  | connection
  | auth
  | notFound
  | server
  | client
deriving DecidableEq

deriving instance DecidableEq for Except

/-- Observable outcome of a `_request` call: the returned value (`true`
when a JSON body was produced) or the raised error class, the backoff
delays slept in order, the number of re-authentications performed, and the
total number of HTTP attempts issued. -/
structure ReqTrace where
  result : Except MErr Bool
  delays : List Nat
  reauths : Nat
  attempts : Nat
deriving DecidableEq

/-- The retry loop with `retry_auth=False`: `j` is the number of loop
iterations left, `k` the global count of attempts already issued, `ds` the
delays slept so far (reversed).  A 401 here is fatal. -/
def reqLoopNA (oracle : Nat → Attempt) (maxR : Nat) :
    Nat → Nat → Option MErr → List Nat → ReqTrace
  | 0, k, lastErr, ds => ⟨.error (lastErr.getD .connection), ds.reverse, 0, k⟩
  | j + 1, k, _, ds =>
    let i := maxR - (j + 1)
    match oracle k with
    | .resp st c =>
      if st = 401 then ⟨.error .auth, ds.reverse, 0, k + 1⟩
      else if st = 404 then ⟨.error .notFound, ds.reverse, 0, k + 1⟩
      else if 500 ≤ st then ⟨.error .server, ds.reverse, 0, k + 1⟩
      else if 400 ≤ st then
        if j = 0 then ⟨.error .client, ds.reverse, 0, k + 1⟩
        else reqLoopNA oracle maxR j (k + 1) (some .client) (2 ^ i :: ds)
      else ⟨.ok c, ds.reverse, 0, k + 1⟩
    | .timeout =>
      if j = 0 then ⟨.error .connection, ds.reverse, 0, k + 1⟩
      else reqLoopNA oracle maxR j (k + 1) (some .connection) (2 ^ i :: ds)
    | .netError =>
      if j = 0 then ⟨.error .connection, ds.reverse, 0, k + 1⟩
      else reqLoopNA oracle maxR j (k + 1) (some .connection) (2 ^ i :: ds)

/-- The retry loop with `retry_auth=True`: identical except that the first
401 re-authenticates once and then re-runs the whole call with
`retry_auth=False`. -/
def reqLoopA (oracle : Nat → Attempt) (maxR : Nat) :
    Nat → Nat → Option MErr → List Nat → ReqTrace
  | 0, k, lastErr, ds => ⟨.error (lastErr.getD .connection), ds.reverse, 0, k⟩
  | j + 1, k, _, ds =>
    let i := maxR - (j + 1)
    match oracle k with
    | .resp st c =>
      if st = 401 then
        let r := reqLoopNA oracle maxR maxR (k + 1) none []
        ⟨r.result, ds.reverse ++ r.delays, 1 + r.reauths, r.attempts⟩
      else if st = 404 then ⟨.error .notFound, ds.reverse, 0, k + 1⟩
      else if 500 ≤ st then ⟨.error .server, ds.reverse, 0, k + 1⟩
      else if 400 ≤ st then
        if j = 0 then ⟨.error .client, ds.reverse, 0, k + 1⟩
        else reqLoopA oracle maxR j (k + 1) (some .client) (2 ^ i :: ds)
      else ⟨.ok c, ds.reverse, 0, k + 1⟩
    | .timeout =>
      if j = 0 then ⟨.error .connection, ds.reverse, 0, k + 1⟩
      else reqLoopA oracle maxR j (k + 1) (some .connection) (2 ^ i :: ds)
    | .netError =>
      if j = 0 then ⟨.error .connection, ds.reverse, 0, k + 1⟩
      else reqLoopA oracle maxR j (k + 1) (some .connection) (2 ^ i :: ds)

/-- `MarzbanClient._request` with `retry_auth=True` (the default) and
`max_retries = maxR`. -/
def mrequest (oracle : Nat → Attempt) (maxR : Nat) : ReqTrace :=
  reqLoopA oracle maxR maxR 0 none []

/-! ### `Job` and its mutators (job_manager.py 27-98) -/

/-- `JobStatus` (job_manager.py 18-24). -/
inductive JobStatus where
  | pending
  | running
  | completed
  | failed
  | cancelled
deriving DecidableEq

/-- Opaque result payload of a job (`Dict[str, Any]` in the source). -/
abbrev JobPayload := List (String × String)

/-- The `Job` dataclass (job_manager.py 27-41); timestamps are seconds as
`Int` and are passed to the mutators explicitly in place of
`datetime.utcnow()`. -/
structure Job where
  job_id : String
  job_type : String
  status : JobStatus
  progress : Int
  current_step : String
  logs : List String
  metadata : List (String × String)
  created_at : Int
  started_at : Option Int
  completed_at : Option Int
  error : Option String
  result : Option JobPayload
deriving DecidableEq

/-- A job as `JobManager.create_job` builds it (job_manager.py 150-154):
all dataclass defaults apply. -/
def mkJob (id ty : String) (t : Int) : Job :=
  { job_id := id, job_type := ty, status := .pending, progress := 0,
    current_step := "", logs := [], metadata := [], created_at := t,
    started_at := none, completed_at := none, error := none, result := none }

/-- `Job.add_log` (job_manager.py 43-48): append a timestamped entry. -/
def addLog (t : Int) (message : String) (j : Job) : Job :=
  { j with logs := j.logs ++ ["[" ++ toString t ++ "] " ++ message] }

/-- `Job.update_progress` (job_manager.py 50-54): clamp the progress into
`[0, 100]` and overwrite `current_step` only when `step` is truthy. -/
def updateProgress (j : Job) (progress : Int) (step : Option String) : Job :=
  { j with
    progress := min (max progress 0) 100,
    current_step :=
      match step with
      | some s => if s = "" then j.current_step else s
      | none => j.current_step }

/-- `Job.start` (job_manager.py 56-60). -/
def jobStart (t : Int) (j : Job) : Job :=
  addLog t "Job started" { j with status := .running, started_at := some t }

/-- `Job.complete` (job_manager.py 62-68). -/
def jobComplete (t : Int) (result : Option JobPayload) (j : Job) : Job :=
  addLog t "Job completed successfully"
    { j with status := .completed, completed_at := some t, progress := 100,
             result := result }

/-- `Job.fail` (job_manager.py 70-75). -/
def jobFail (t : Int) (e : String) (j : Job) : Job :=
  addLog t ("Job failed: " ++ e)
    { j with status := .failed, completed_at := some t, error := some e }

/-- `Job.cancel` (job_manager.py 77-81). -/
def jobCancel (t : Int) (j : Job) : Job :=
  addLog t "Job cancelled" { j with status := .cancelled, completed_at := some t }

/-- `JobManager.cancel_job` on a known job (job_manager.py 233-260): the
cancel is applied only when the status is Pending or Running, and the
returned boolean reports whether it was.  The status guard and the
`job.cancel()` call are modelled as one atomic step (single-threaded
cooperative scheduling). -/
def cancelJobOp (t : Int) (j : Job) : Job × Bool :=
  if j.status = .pending ∨ j.status = .running then (jobCancel t j, true)
  else (j, false)

/-- The guarded completion at the end of `run_job`'s wrapped task
(job_manager.py 218-220): complete only when the task function left the
job Running. -/
def wrapCompleteOp (t : Int) (j : Job) : Job :=
  if j.status = .running then jobComplete t none j else j

/-- Terminal statuses. -/
def isTerminal : JobStatus → Bool
  | .completed => true
  | .failed => true
  | .cancelled => true
  | _ => false

/-- The transition set asserted by the specification: Pending→Running and
Running→{Completed, Failed, Cancelled} (staying put is not a transition). -/
def claimTransOK : JobStatus → JobStatus → Bool
  | a, b =>
    decide (a = b
      ∨ (a = .pending ∧ b = .running)
      ∨ (a = .running ∧ (b = .completed ∨ b = .failed ∨ b = .cancelled)))

/-- The transition set the code actually guarantees: additionally
Pending→Cancelled, because `cancel_job` explicitly accepts a still-pending
job (job_manager.py 247). -/
def codeTransOK : JobStatus → JobStatus → Bool
  | a, b =>
    decide (a = b
      ∨ (a = .pending ∧ (b = .running ∨ b = .cancelled))
      ∨ (a = .running ∧ (b = .completed ∨ b = .failed ∨ b = .cancelled)))

/-- Status mutations of one job as the JobManager and its only task
function invoke them (job_manager.py `run_job`/`cancel_job`, with the task
body of panel_service.py 769-914):

* `start` — the wrapped task begins with `job.start()`; it runs once, on
  the still-pending job (job_manager.py 216);
* `taskComplete`/`taskFail` — the task body calls `job.complete(...)` /
  `job.fail(...)` while the job it owns is Running (panel_service.py 896
  and 911); the body runs strictly between `job.start()` and the wrapper
  epilogue, and a cancelled task stops at its suspension point instead of
  running these;
* `wrapComplete` — the wrapper's guarded completion (job_manager.py
  218-220);
* `wrapFail` — the wrapper's `except` handler (job_manager.py 221-223);
  the task raised `e` either before mutating the job (job still Running)
  or after having recorded the same failure and re-raised
  (panel_service.py 910-914: `job.fail(str(e)); raise`);
* `cancel` — `cancel_job`'s guarded cancel (job_manager.py 243-260). -/
inductive MgrStep : Job → Job → Prop
  | start (t : Int) (j : Job) :
      j.status = .pending → MgrStep j (jobStart t j)
  | taskComplete (t : Int) (r : Option JobPayload) (j : Job) :
      j.status = .running → MgrStep j (jobComplete t r j)
  | taskFail (t : Int) (e : String) (j : Job) :
      j.status = .running → MgrStep j (jobFail t e j)
  | wrapComplete (t : Int) (j : Job) :
      MgrStep j (wrapCompleteOp t j)
  | wrapFail (t : Int) (e : String) (j : Job) :
      j.status = .running ∨ (j.status = .failed ∧ j.error = some e) →
      MgrStep j (jobFail t e j)
  | cancel (t : Int) (j : Job) :
      MgrStep j (cancelJobOp t j).1

/-! ### `NodeService.delete_node` (node_service.py 109-208)

The three layers are driven by `Except String Bool` oracles: `.ok b` is the
boolean the layer returned, `.error e` an exception with message `e`.  The
returned action list records, in order, which layers were actually
attempted (the panel call, the SSH uninstall, the local delete). -/

/-- The fields of the node row that `delete_node` reads. -/
structure NodeRec where
  name : String
  panel_id : Nat
  ssh_profile_id : Option Nat
deriving DecidableEq

/-- `schemas/node.py` `NodeDeleteResponse` (105-111); the Python field
`local` is called `localDel` here because `local` is a Lean keyword. -/
structure NodeDeleteResponse where
  success : Bool
  localDel : Bool
  marzban : Option Bool
  server : Option Bool
  errors : List String
deriving DecidableEq

/-- Which deletion layers were attempted, in order. -/
inductive DelAction where
  | marzbanAttempt
  | serverAttempt
  | localAttempt
deriving DecidableEq

/-- `NodeService.delete_node`.  `existing` is the repository row (none
when the node id is unknown).  Python truthiness of `SSHProfileID` is
`ssh_profile_id.getD 0 ≠ 0`. -/
def deleteNode (existing : Option NodeRec) (delM delS : Bool)
    (marzbanOutcome serverOutcome localOutcome : Except String Bool) :
    NodeDeleteResponse × List DelAction :=
  match existing with
  | none =>
    ({ success := false, localDel := false, marzban := none, server := none,
       errors := ["Node not found"] }, [])
  | some node =>
    let mz : Option Bool × List String × List DelAction :=
      if delM then
        match marzbanOutcome with
        | .ok true => (some true, [], [.marzbanAttempt])
        | .ok false =>
          (some false, ["Node " ++ sqWrap node.name ++ " not found in Marzban panel"],
           [.marzbanAttempt])
        | .error e =>
          (some false, ["Failed to delete from Marzban: " ++ e], [.marzbanAttempt])
      else (none, [], [])
    let sv : Option Bool × List String × List DelAction :=
      if delS then
        if node.ssh_profile_id.getD 0 = 0 then
          (some false,
           ["Cannot uninstall from server: No SSH profile associated with this node"], [])
        else
          match serverOutcome with
          | .ok true => (some true, [], [.serverAttempt])
          | .ok false =>
            (some false, ["Failed to uninstall node " ++ sqWrap node.name ++ " from server"],
             [.serverAttempt])
          | .error e =>
            (some false, ["Failed to uninstall from server: " ++ e], [.serverAttempt])
      else (none, [], [])
    let lc : Bool × List String :=
      match localOutcome with
      | .ok b => (b, [])
      | .error e => (false, ["Failed to delete from local database: " ++ e])
    ({ success := lc.1, localDel := lc.1, marzban := mz.1, server := sv.1,
       errors := mz.2.1 ++ sv.2.1 ++ lc.2 },
     mz.2.2 ++ sv.2.2 ++ [.localAttempt])

/-! ### `SSHInstallService._run_installation` ports dataflow
(ssh_install_service.py 123-252 and 355-419) -/

/-- The fields of `SSHInstallRequest` this dataflow reads
(schemas/ssh_install.py 15-46). -/
structure InstallRequest where
  node_name : String
  service_port : Nat
  api_port : Nat
  auto_ports : Bool
  inbounds : Option (List String)
deriving DecidableEq

/-- The arguments `_run_installation` passes to
`NodeManagerClient.install_node`. -/
structure InstallCall where
  name : String
  service_port : Nat
  api_port : Nat
  method : String
  inbounds : Option (List String)
  auto_ports : Bool
deriving DecidableEq

/-- The local node row `_register_node` inserts
(ssh_install_service.py 366-380). -/
structure LocalNodeInsert where
  panel_id : Nat
  node_name : String
  address : String
  service_port : Nat
  api_port : Nat
  ssh_profile_id : Option Nat
deriving DecidableEq

/-- The arguments of the panel-side `create_node` call
(ssh_install_service.py 394-399). -/
structure PanelCreateNode where
  name : String
  address : String
  port : Nat
  api_port : Nat
deriving DecidableEq

/-- The job result payload built on completion
(ssh_install_service.py 235-242). -/
structure InstallJobPayload where
  node_id : Nat
  node_name : String
  address : String
  service_port : Nat
  api_port : Nat
  ssh_profile_id : Nat
deriving DecidableEq

/-- `SSHInstallService._register_node` (ssh_install_service.py 355-419):
insert the local row first (with the SSH profile id when truthy), then
best-effort create the node in the panel when an access token exists. -/
def registerNode (panel_id : Nat) (node_name address : String)
    (service_port api_port : Nat) (ssh_profile_id : Option Nat)
    (hasToken : Bool) (newNodeId : Nat) :
    Nat × LocalNodeInsert × Option PanelCreateNode :=
  let ins : LocalNodeInsert :=
    { panel_id := panel_id, node_name := node_name, address := address,
      service_port := service_port, api_port := api_port,
      ssh_profile_id :=
        if ssh_profile_id.getD 0 = 0 then none else ssh_profile_id }
  let pc : Option PanelCreateNode :=
    if hasToken then
      some { name := node_name, address := address, port := service_port,
             api_port := api_port }
    else none
  (newNodeId, ins, pc)

/-- The install / register / persist dataflow of
`SSHInstallService._run_installation` steps 5-7 (ssh_install_service.py
196-245).  `install` is the outcome of the install step as a function of
the arguments it receives.  The modelled call site passes `auto_ports :=
false` because the source invokes `nm.install_node(...)` WITHOUT an
`auto_ports` argument (ssh_install_service.py 200-207), so the Python
default `False` of node_manager_client.py 112 applies; `request.auto_ports`
is never read in this service.  Returns the install call, the CLI command
it leads to, and — when the install step succeeds — the local insert, the
optional panel registration and the job result payload. -/
def runInstallation (req : InstallRequest) (panel_id : Nat) (host : String)
    (ssh_profile_id : Nat) (hasToken : Bool)
    (install : InstallCall → InstallResult) (newNodeId : Nat) :
    InstallCall × String ×
      Except String (LocalNodeInsert × Option PanelCreateNode × InstallJobPayload) :=
  let call : InstallCall :=
    { name := req.node_name, service_port := req.service_port,
      api_port := req.api_port, method := "docker", inbounds := req.inbounds,
      auto_ports := false }
  let cmd := buildInstallCmd call.name (certPath call.name) call.method
      call.service_port call.api_port call.inbounds call.auto_ports
  let ir := install call
  let rest :
      Except String (LocalNodeInsert × Option PanelCreateNode × InstallJobPayload) :=
    if ir.success = false then
      .error ("Installation failed: " ++ ir.error.getD "None")
    else
      let address :=
        match ir.public_ip with
        | some ip => if ip = "" then host else ip
        | none => host
      let reg := registerNode panel_id req.node_name address ir.service_port
          ir.api_port (some ssh_profile_id) hasToken newNodeId
      .ok (reg.2.1, reg.2.2,
           { node_id := reg.1, node_name := req.node_name, address := address,
             service_port := ir.service_port, api_port := ir.api_port,
             ssh_profile_id := ssh_profile_id })
  (call, cmd, rest)

/-! ### Concrete inputs used by witnesses and counterexamples -/

/-- Oracle: first attempt answers 500, any retry would succeed. -/
def oracle500 : Nat → Attempt :=
  fun k => if k = 0 then .resp 500 true else .resp 200 true

/-- Oracle: every attempt answers 404. -/
def oracle404 : Nat → Attempt := fun _ => .resp 404 true

/-- Oracle: every attempt answers 401. -/
def oracle401 : Nat → Attempt := fun _ => .resp 401 false

/-- Oracle: every attempt times out. -/
def oracleTimeoutAll : Nat → Attempt := fun _ => .timeout

/-- Oracle: first attempt is a 400, the second succeeds with a body. -/
def oracle400Then200 : Nat → Attempt :=
  fun k => if k = 0 then .resp 400 false else .resp 200 true

/-- A string on which stripping is not idempotent: ESC, ESC, A, bracket,
at-sign.  The first pass removes the two-byte sequence ESC-A, bringing the
leading ESC next to the bracket; the second pass then removes the newly
formed CSI sequence. -/
def ansiNestedEx : String := String.mk [escCh, escCh, 'A', '[', '@']

/-- An ordinary coloured string: ESC [ 3 1 m R e d. -/
def ansiColorEx : String := String.mk (escCh :: "[31mRed".data)

/-- The CLI output of the specification example, with the two port labels. -/
def c4out : String :=
  "  SERVICE_PORT:        62060\n  XRAY_API_PORT:       62061\n"

/-- The install command of the C7 scenario (default arguments). -/
def c7cmd : String :=
  buildInstallCmd "n1" (certPath "n1") "docker" 62050 62051 none false

/-- Exec behaviour for the C7 counterexample: the CLI probe (call 0)
succeeds, so call 1 is the install command, which raises. -/
def c7raisingExec : Nat → ExecBehavior := fun i =>
  if i = 0 then .returns ⟨"/usr/bin/marzban-node-manager\n", "", 0⟩
  else .raises "connection lost"

/-- Exec behaviour where every command returns exit code 0. -/
def allOkExec : Nat → ExecBehavior := fun _ => .returns ⟨"", "", 0⟩

/-- A pending job fresh out of `create_job`. -/
def jobEx : Job := mkJob "j1" "ssh_install" 0

/-- An existing node row with an associated SSH profile. -/
def nodeEx : NodeRec := { name := "node1", panel_id := 1, ssh_profile_id := some 7 }

/-- The C1 failing input: a request that asks for auto-assigned ports. -/
def c1req : InstallRequest :=
  { node_name := "node1", service_port := 62050, api_port := 62051,
    auto_ports := true, inbounds := none }

/-- The C1 install-step outcome: the CLI reports ports 62060/62061. -/
def c1install : InstallCall → InstallResult := fun c =>
  { success := true, node_name := c.name, service_port := 62060,
    api_port := 62061, install_dir := some "/opt/node1", data_dir := none,
    public_ip := some "1.2.3.4", error := none }

/-- Substring occurrence of `label` in a character list, independent of the
search functions above: at each position, compare `label` against the
window of its own length. -/
def labelOccursIn (label : List Char) : List Char → Bool
  | [] => decide (label = [])
  | c :: rest =>
    decide ((c :: rest).take label.length = label) || labelOccursIn label rest

/-- The SSH interactions performed by `ensureCli`, in every outcome. -/
def cliTrace : CliEnsure → List SSHEvent
  | .raised _ tr => tr
  | .bootstrapFailed tr => tr
  | .ready tr => tr

/-- The cleanup command that removes the temporary certificate. -/
def rmCertCmd (name : String) : String := "rm -f " ++ certPath name

/-- A job that ran to completion: started at time 1, completed at time 2
with a payload. -/
def completedJobEx : Job :=
  jobComplete 2 (some [("node_id", "42")]) (jobStart 1 jobEx)

/-! ## Theorems -/

/-- Helper: on an ESC-free list, one stripping pass is the identity
(every kept branch of `stripAnsiGo` copies the head unchanged). -/
theorem stripAnsiGo_of_not_mem :
    ∀ (fuel : Nat) (l : List Char), l.length ≤ fuel → escCh ∉ l →
      stripAnsiGo fuel l = l := by
  intro fuel
  induction fuel with
  | zero =>
    intro l hl _
    have : l = [] := List.eq_nil_of_length_eq_zero (Nat.le_zero.mp hl)
    subst this
    rfl
  | succ n ih =>
    intro l hl hmem
    cases l with
    | nil => rfl
    | cons c rest =>
      have hc : c ≠ escCh := fun h => hmem (h ▸ List.mem_cons_self c rest)
      have hrest : escCh ∉ rest := fun h => hmem (List.mem_cons_of_mem c h)
      have hlen : rest.length ≤ n := Nat.succ_le_succ_iff.mp hl
      show stripAnsiGo (n + 1) (c :: rest) = c :: rest
      simp only [stripAnsiGo, if_neg hc]
      exact congrArg (c :: ·) (ih rest hlen hrest)

/-- Helper: when the label never occurs in the text, the leftmost labelled
search fails. -/
theorem searchLabelNum_eq_none_of_not_occurs :
    ∀ (label l : List Char), labelOccursIn label l = false →
      searchLabelNum label l = none := by
  intro label l
  induction l with
  | nil => intro _; rfl
  | cons c rest ih =>
    intro h
    simp only [labelOccursIn, Bool.or_eq_false_iff, decide_eq_false_iff_not] at h
    simp only [searchLabelNum, matchLabelNumAt, if_neg h.1]
    exact ih h.2

/-- Helper: the no-reauth loop issues at most `j` further attempts. -/
theorem reqLoopNA_attempts_le (oracle : Nat → Attempt) (maxR : Nat) :
    ∀ j k le ds, (reqLoopNA oracle maxR j k le ds).attempts ≤ k + j := by
  intro j
  induction j with
  | zero => intro k le ds; simp [reqLoopNA]
  | succ n ih =>
    intro k le ds
    cases h : oracle k with
    | timeout =>
      by_cases hn : n = 0
      · subst hn; simp [reqLoopNA, h]
      · simp only [reqLoopNA, h, if_neg hn]
        exact (ih _ _ _).trans (by omega)
    | netError =>
      by_cases hn : n = 0
      · subst hn; simp [reqLoopNA, h]
      · simp only [reqLoopNA, h, if_neg hn]
        exact (ih _ _ _).trans (by omega)
    | resp st c =>
      simp only [reqLoopNA, h]
      split_ifs with h1 h2 h3 h4 h5
      · simp
      · simp
      · simp
      · simp
      · exact (ih _ _ _).trans (by omega)
      · simp

/-- Helper: the no-reauth loop never re-authenticates. -/
theorem reqLoopNA_reauths (oracle : Nat → Attempt) (maxR : Nat) :
    ∀ j k le ds, (reqLoopNA oracle maxR j k le ds).reauths = 0 := by
  intro j
  induction j with
  | zero => intro k le ds; simp [reqLoopNA]
  | succ n ih =>
    intro k le ds
    cases h : oracle k with
    | timeout =>
      by_cases hn : n = 0
      · subst hn; simp [reqLoopNA, h]
      · simp only [reqLoopNA, h, if_neg hn]; exact ih _ _ _
    | netError =>
      by_cases hn : n = 0
      · subst hn; simp [reqLoopNA, h]
      · simp only [reqLoopNA, h, if_neg hn]; exact ih _ _ _
    | resp st c =>
      simp only [reqLoopNA, h]
      split_ifs with h1 h2 h3 h4 h5
      · simp
      · simp
      · simp
      · simp
      · exact ih _ _ _
      · simp

/-- Helper: the full loop issues at most `j` attempts plus one inner run. -/
theorem reqLoopA_attempts_le (oracle : Nat → Attempt) (maxR : Nat) :
    ∀ j k le ds, (reqLoopA oracle maxR j k le ds).attempts ≤ k + j + maxR := by
  intro j
  induction j with
  | zero => intro k le ds; simp [reqLoopA]
  | succ n ih =>
    intro k le ds
    cases h : oracle k with
    | timeout =>
      by_cases hn : n = 0
      · subst hn; simp [reqLoopA, h]
      · simp only [reqLoopA, h, if_neg hn]
        exact (ih _ _ _).trans (by omega)
    | netError =>
      by_cases hn : n = 0
      · subst hn; simp [reqLoopA, h]
      · simp only [reqLoopA, h, if_neg hn]
        exact (ih _ _ _).trans (by omega)
    | resp st c =>
      simp only [reqLoopA, h]
      split_ifs with h1 h2 h3 h4 h5
      · have := reqLoopNA_attempts_le oracle maxR maxR (k + 1) none []
        simp only []
        omega
      · simp; omega
      · simp; omega
      · simp; omega
      · exact (ih _ _ _).trans (by omega)
      · simp; omega

/-- Helper: at most one re-authentication ever happens. -/
theorem reqLoopA_reauths_le (oracle : Nat → Attempt) (maxR : Nat) :
    ∀ j k le ds, (reqLoopA oracle maxR j k le ds).reauths ≤ 1 := by
  intro j
  induction j with
  | zero => intro k le ds; simp [reqLoopA]
  | succ n ih =>
    intro k le ds
    cases h : oracle k with
    | timeout =>
      by_cases hn : n = 0
      · subst hn; simp [reqLoopA, h]
      · simp only [reqLoopA, h, if_neg hn]; exact ih _ _ _
    | netError =>
      by_cases hn : n = 0
      · subst hn; simp [reqLoopA, h]
      · simp only [reqLoopA, h, if_neg hn]; exact ih _ _ _
    | resp st c =>
      simp only [reqLoopA, h]
      split_ifs with h1 h2 h3 h4 h5
      · have := reqLoopNA_reauths oracle maxR maxR (k + 1) none []
        simp only []
        omega
      · simp
      · simp
      · simp
      · exact ih _ _ _
      · simp

/-- Helper: a run of timeouts exhausts the loop, sleeping `2^attempt`
before every retried attempt except the last, and raises the last observed
connection error. -/
theorem reqLoopA_timeout_run (oracle : Nat → Attempt) (maxR : Nat) :
    ∀ j k le ds, 1 ≤ j → j ≤ maxR →
      (∀ i, i < j → oracle (k + i) = .timeout) →
      reqLoopA oracle maxR j k le ds =
        ⟨.error .connection,
         ds.reverse ++ (List.range' (maxR - j) (j - 1)).map (2 ^ ·), 0, k + j⟩ := by
  intro j
  induction j with
  | zero => intro k le ds h1; omega
  | succ n ih =>
    intro k le ds _ hle hor
    have hk : oracle k = .timeout := by
      have := hor 0 (Nat.succ_pos n)
      simpa using this
    by_cases hn : n = 0
    · subst hn
      simp [reqLoopA, hk]
    · have h1n : 1 ≤ n := Nat.one_le_iff_ne_zero.mpr hn
      have hlen : n ≤ maxR := by omega
      have hor2 : ∀ i, i < n → oracle (k + 1 + i) = .timeout := by
        intro i hi
        have := hor (i + 1) (by omega)
        simpa [Nat.add_assoc, Nat.add_comm 1 i] using this
      simp only [reqLoopA, hk, if_neg hn]
      rw [ih (k + 1) (some .connection) (2 ^ (maxR - (n + 1)) :: ds) h1n hlen hor2]
      have hrange : List.range' (maxR - (n + 1)) n =
          (maxR - (n + 1)) :: List.range' (maxR - n) (n - 1) := by
        obtain ⟨m, rfl⟩ : ∃ m, n = m + 1 := ⟨n - 1, by omega⟩
        rw [List.range'_succ]
        simp only [Nat.add_sub_cancel, List.cons.injEq, true_and]
        congr 1
        omega
      simp only [ReqTrace.mk.injEq, Nat.add_sub_cancel, hrange, List.map_cons,
        List.reverse_cons, List.append_assoc, List.singleton_append, true_and]
      omega

/-- C2 (amended): for every invocation of `MarzbanClient._request`, the
retry loop issues at most `max_retries` attempts per loop run (at most
`2*max_retries` including the single re-authentication retry); timeouts,
network errors and non-401/404 4xx responses sleep `2^attempt` seconds and
retry; a 404 raises a not-found error immediately with no further attempt;
a 401 triggers exactly one re-authentication followed by one retry of the
call, and a second 401 raises an authentication error; when every attempt
is exhausted the last observed error is raised.  AMENDED from the claim: a
5xx response raises `MarzbanServerError` immediately with no backoff and
no retry, because that exception matches none of the except clauses of the
loop (marzban_client.py 239-264). -/
theorem c2_retry_policy (oracle : Nat → Attempt) (m : Nat) :
    ((mrequest oracle m).attempts ≤ 2 * m ∧ (mrequest oracle m).reauths ≤ 1)
    ∧ (∀ c, 0 < m → oracle 0 = .resp 404 c →
        mrequest oracle m = ⟨.error .notFound, [], 0, 1⟩)
    ∧ (∀ c c2, 0 < m → oracle 0 = .resp 401 c → oracle 1 = .resp 401 c2 →
        mrequest oracle m = ⟨.error .auth, [], 1, 2⟩)
    ∧ (∀ s c, 0 < m → 500 ≤ s → oracle 0 = .resp s c →
        mrequest oracle m = ⟨.error .server, [], 0, 1⟩)
    ∧ (0 < m → (∀ k, k < m → oracle k = .timeout) →
        mrequest oracle m =
          ⟨.error .connection, (List.range (m - 1)).map (2 ^ ·), 0, m⟩)
    ∧ (∀ c, 2 ≤ m → oracle 0 = .resp 400 false → oracle 1 = .resp 200 c →
        mrequest oracle m = ⟨.ok c, [1], 0, 2⟩) := by
  refine ⟨⟨?_, ?_⟩, ?_, ?_, ?_, ?_, ?_⟩
  · have := reqLoopA_attempts_le oracle m m 0 none []
    simpa [mrequest, Nat.two_mul] using this
  · exact reqLoopA_reauths_le oracle m m 0 none []
  · intro c hm h
    obtain ⟨n, rfl⟩ : ∃ n, m = n + 1 := ⟨m - 1, by omega⟩
    simp [mrequest, reqLoopA, h]
  · intro c c2 hm h0 h1
    obtain ⟨n, rfl⟩ : ∃ n, m = n + 1 := ⟨m - 1, by omega⟩
    simp [mrequest, reqLoopA, reqLoopNA, h0, h1]
  · intro s c hm hs h0
    obtain ⟨n, rfl⟩ : ∃ n, m = n + 1 := ⟨m - 1, by omega⟩
    have h1 : s ≠ 401 := by omega
    have h2 : s ≠ 404 := by omega
    simp only [mrequest, reqLoopA, h0]
    rw [if_neg h1, if_neg h2, if_pos hs]
    simp
  · intro hm hor
    have h := reqLoopA_timeout_run oracle m m 0 none [] hm (le_refl m)
      (by intro i hi; simpa using hor i hi)
    simpa [mrequest, List.range_eq_range'] using h
  · intro c hm h0 h1
    obtain ⟨n, rfl⟩ : ∃ n, m = n + 2 := ⟨m - 2, by omega⟩
    have e1 : n + 2 - (n + 1 + 1) = 0 := by omega
    simp [mrequest, reqLoopA, h0, h1, e1]

/-- C2 counterexample to the claim as stated: on an oracle whose first
attempt answers 500 and whose second would succeed, the claim demands a
`2^0` backoff and a successful retry, but `_request` raises the server
error after a single attempt with no backoff (`MarzbanServerError` is
caught by no except clause of the loop). -/
theorem c2_counterexample :
    mrequest oracle500 3 = ⟨.error .server, [], 0, 1⟩
    ∧ oracle500 1 = .resp 200 true
    ∧ (mrequest oracle500 3).delays = []
    ∧ (mrequest oracle500 3).attempts = 1 := by
  decide

/-- C2 witness: the amended theorem applied at concrete oracles. -/
theorem c2_witness :
    mrequest oracle404 3 = ⟨.error .notFound, [], 0, 1⟩
    ∧ mrequest oracleTimeoutAll 3 = ⟨.error .connection, [1, 2], 0, 3⟩
    ∧ mrequest oracle401 3 = ⟨.error .auth, [], 1, 2⟩
    ∧ mrequest oracle400Then200 3 = ⟨.ok true, [1], 0, 2⟩ := by
  have h404 := (c2_retry_policy oracle404 3).2.1 true (by decide) rfl
  have hto := (c2_retry_policy oracleTimeoutAll 3).2.2.2.2.1 (by decide)
    (fun _ _ => rfl)
  have h401 := (c2_retry_policy oracle401 3).2.2.1 false false (by decide) rfl rfl
  have h400 := (c2_retry_policy oracle400Then200 3).2.2.2.2.2 true (by decide)
    (by decide) (by decide)
  refine ⟨h404, ?_, h401, h400⟩
  rw [hto]; decide

/-- C6 counterexample: stripping ANSI sequences is not idempotent.  On the
string ESC ESC A bracket at-sign the first pass removes the two-byte
sequence ESC-A, which brings the surviving leading ESC next to the
bracket; the second pass then removes the newly formed CSI sequence, so
the two results differ. -/
theorem c6_counterexample :
    stripAnsi ansiNestedEx = String.mk [escCh, '[', '@']
    ∧ stripAnsi (stripAnsi ansiNestedEx) = ""
    ∧ stripAnsi (stripAnsi ansiNestedEx) ≠ stripAnsi ansiNestedEx := by
  decide

/-- C6 (amended): `_strip_ansi` is idempotent on every string whose
stripped form contains no ESC character (in particular on the output of
any well-formed terminal stream); in general a second pass can remove
sequences first revealed by the removal of an overlapping prefix. -/
theorem c6_strip_idempotent_on_clean (s : String) :
    escCh ∉ (stripAnsi s).data → stripAnsi (stripAnsi s) = stripAnsi s := by
  intro h
  have h2 : stripAnsiChars (stripAnsi s).data = (stripAnsi s).data := by
    unfold stripAnsiChars
    exact stripAnsiGo_of_not_mem _ _ (le_refl _) h
  show String.mk (stripAnsiChars (stripAnsi s).data) = stripAnsi s
  rw [h2]

/-- C6 witness: the amended theorem applied to a coloured string. -/
theorem c6_witness :
    escCh ∉ (stripAnsi ansiColorEx).data
    ∧ stripAnsi (stripAnsi ansiColorEx) = stripAnsi ansiColorEx :=
  ⟨by decide, c6_strip_idempotent_on_clean ansiColorEx (by decide)⟩

/-- C8: `TokenInfo.is_expired` returns true exactly when
`now >= expires_at - 5 minutes`, and false whenever `expires_at` is
absent; a token expiring in 4 minutes is expired, one expiring in 10
minutes is not (marzban_client.py 26-30). -/
theorem c8_token_expiry (now e : Int) :
    tokenIsExpired now none = false
    ∧ (tokenIsExpired now (some e) = true ↔ now ≥ e - 5 * 60)
    ∧ tokenIsExpired now (some (now + 4 * 60)) = true
    ∧ tokenIsExpired now (some (now + 10 * 60)) = false := by
  refine ⟨rfl, ?_, ?_, ?_⟩
  · simp [tokenIsExpired, ge_iff_le]
  · simp only [tokenIsExpired, decide_eq_true_eq]
    omega
  · simp only [tokenIsExpired, decide_eq_false_iff_not]
    omega

/-- C9: when both `password` and `private_key` are absent,
`SSHClient._connect_sync` raises `SSHConnectionError("No authentication
method provided")` in the `else` branch of the credential selection,
before `self._client.connect` is reached, so no network connection is
attempted (`.ok` is never produced). -/
theorem c9_no_auth_no_connect :
    connectSyncAuth none none = .error "No authentication method provided"
    ∧ ∀ a : AuthMethod, connectSyncAuth none none ≠ .ok a := by
  refine ⟨rfl, ?_⟩
  intro a
  cases a <;> decide

/-- C10: `Job.update_progress` mutates only `progress` (clamped into
`[0, 100]`) and, when `step` is a non-empty string, `current_step`; every
other field is unchanged, and `current_step` is unchanged when `step` is
`None` or empty (job_manager.py 50-54). -/
theorem c10_update_progress_frame (j : Job) (p : Int) (st : Option String) :
    (updateProgress j p st).status = j.status
    ∧ (updateProgress j p st).logs = j.logs
    ∧ (updateProgress j p st).metadata = j.metadata
    ∧ (updateProgress j p st).created_at = j.created_at
    ∧ (updateProgress j p st).started_at = j.started_at
    ∧ (updateProgress j p st).completed_at = j.completed_at
    ∧ (updateProgress j p st).error = j.error
    ∧ (updateProgress j p st).result = j.result
    ∧ (updateProgress j p st).job_id = j.job_id
    ∧ (updateProgress j p st).job_type = j.job_type
    ∧ (updateProgress j p st).progress = min (max p 0) 100
    ∧ 0 ≤ (updateProgress j p st).progress
    ∧ (updateProgress j p st).progress ≤ 100
    ∧ (updateProgress j p st).current_step =
        (match st with
         | some s => if s = "" then j.current_step else s
         | none => j.current_step) := by
  refine ⟨rfl, rfl, rfl, rfl, rfl, rfl, rfl, rfl, rfl, rfl, rfl, ?_, ?_, rfl⟩
  · exact le_min (le_max_right p 0) (by norm_num)
  · exact min_le_right _ _

/-- C3: for every `NodeService.delete_node` call on an existing node,
local deletion is always attempted last regardless of the panel-side and
server-side outcomes (including raised exceptions); `marzban`
(respectively `server`) is null exactly when that layer was not requested
and a boolean otherwise; the overall `success` equals the local deletion
outcome only; and in Scenario E (both cascades requested, panel deletion
raises a connection error, server uninstall and local deletion succeed)
the result is `success=true, marzban=false, server=true` with exactly one
error message describing the panel failure (node_service.py 109-208). -/
theorem c3_delete_cascade (node : NodeRec) (delM delS : Bool)
    (om os ol : Except String Bool) :
    ((deleteNode (some node) delM delS om os ol).2.getLast? = some .localAttempt)
    ∧ ((deleteNode (some node) delM delS om os ol).1.marzban.isNone = !delM)
    ∧ ((deleteNode (some node) delM delS om os ol).1.server.isNone = !delS)
    ∧ ((deleteNode (some node) delM delS om os ol).1.success
        = (deleteNode (some node) delM delS om os ol).1.localDel)
    ∧ ((deleteNode (some node) delM delS om os ol).1.success
        = match ol with | .ok b => b | .error _ => false)
    ∧ ((deleteNode (some nodeEx) true true
          (.error "connection error") (.ok true) (.ok true)).1
        = { success := true, localDel := true, marzban := some false,
            server := some true,
            errors := ["Failed to delete from Marzban: connection error"] }) := by
  refine ⟨?_, ?_, ?_, ?_, ?_, by decide⟩
  · show (_ ++ _ ++ [DelAction.localAttempt]).getLast? = some .localAttempt
    exact List.getLast?_concat _
  · cases delM with
    | false => simp [deleteNode]
    | true =>
      cases om with
      | error e => simp [deleteNode]
      | ok b => cases b <;> simp [deleteNode]
  · cases delS with
    | false => simp [deleteNode]
    | true =>
      by_cases hp : node.ssh_profile_id.getD 0 = 0
      · simp [deleteNode, hp]
      · cases os with
        | error e => simp [deleteNode, hp]
        | ok b => cases b <;> simp [deleteNode, hp]
  · rfl
  · cases ol <;> rfl

/-- Helper: the parsed service port is the leftmost labelled value with
the requested port as fallback, independently of the exit code. -/
theorem parse_service_port_eq (r : CommandResult) (name : String) (sp ap : Nat) :
    (parseInstallOutput r name sp ap).service_port
      = (searchLabelNum serviceLabel (stripAnsiChars (r.stdout ++ r.stderr).data)).getD sp := by
  simp only [parseInstallOutput]
  split <;> rfl

/-- Helper: the parsed API port, mirror of `parse_service_port_eq`. -/
theorem parse_api_port_eq (r : CommandResult) (name : String) (sp ap : Nat) :
    (parseInstallOutput r name sp ap).api_port
      = (searchLabelNum apiLabel (stripAnsiChars (r.stdout ++ r.stderr).data)).getD ap := by
  simp only [parseInstallOutput]
  split <;> rfl

/-- C4 counterexample to one clause of the claim as stated: on a non-zero
exit code the error message is not always the cleaned output — it is the
whitespace-trimmed cleaned output, with the fixed fallback "Installation
failed" when the trimmed output is empty.  Concretely, for stdout `" "`,
stderr `""` and exit code 1 the cleaned output is `" "` but the error is
`"Installation failed"` (node_manager_client.py 204-206). -/
theorem c4_counterexample :
    (parseInstallOutput ⟨" ", "", 1⟩ "n" 62050 62051).success = false
    ∧ (parseInstallOutput ⟨" ", "", 1⟩ "n" 62050 62051).error
        = some "Installation failed"
    ∧ stripAnsi (" " ++ "") = " "
    ∧ (some "Installation failed" : Option String) ≠ some " " := by
  decide

/-- C4 (amended): `_parse_install_output` strips control sequences from
the combined stdout+stderr first; a labelled `SERVICE_PORT:` /
`XRAY_API_PORT:` numeric line overrides the requested value (the parsed
port does not depend on the requested ports at all); when a label does not
occur, the requested port is returned unchanged; and a non-zero exit code
yields `success=false` whose error message is the whitespace-trimmed
cleaned output (or the fixed string "Installation failed" when that is
empty), while the ports are parsed exactly as in the success case. -/
theorem c4_parse_output (r : CommandResult) (name : String) (sp ap sp2 ap2 : Nat) :
    (labelOccursIn serviceLabel (stripAnsiChars (r.stdout ++ r.stderr).data) = false →
       (parseInstallOutput r name sp ap).service_port = sp)
    ∧ (labelOccursIn apiLabel (stripAnsiChars (r.stdout ++ r.stderr).data) = false →
       (parseInstallOutput r name sp ap).api_port = ap)
    ∧ (∀ n, searchLabelNum serviceLabel (stripAnsiChars (r.stdout ++ r.stderr).data) = some n →
       (parseInstallOutput r name sp ap).service_port = n)
    ∧ (∀ n, searchLabelNum apiLabel (stripAnsiChars (r.stdout ++ r.stderr).data) = some n →
       (parseInstallOutput r name sp ap).api_port = n)
    ∧ ((searchLabelNum serviceLabel (stripAnsiChars (r.stdout ++ r.stderr).data)).isSome = true →
       (parseInstallOutput r name sp ap).service_port
         = (parseInstallOutput r name sp2 ap2).service_port)
    ∧ ((searchLabelNum apiLabel (stripAnsiChars (r.stdout ++ r.stderr).data)).isSome = true →
       (parseInstallOutput r name sp ap).api_port
         = (parseInstallOutput r name sp2 ap2).api_port)
    ∧ (r.exit_code ≠ 0 →
       (parseInstallOutput r name sp ap).success = false
       ∧ (parseInstallOutput r name sp ap).error =
           some (if pyStrip (stripAnsiChars (r.stdout ++ r.stderr).data) = []
                 then "Installation failed"
                 else String.mk (pyStrip (stripAnsiChars (r.stdout ++ r.stderr).data)))
       ∧ (parseInstallOutput r name sp ap).service_port
           = (parseInstallOutput ⟨r.stdout, r.stderr, 0⟩ name sp ap).service_port
       ∧ (parseInstallOutput r name sp ap).api_port
           = (parseInstallOutput ⟨r.stdout, r.stderr, 0⟩ name sp ap).api_port) := by
  refine ⟨?_, ?_, ?_, ?_, ?_, ?_, ?_⟩
  · intro h
    rw [parse_service_port_eq, searchLabelNum_eq_none_of_not_occurs _ _ h]
    rfl
  · intro h
    rw [parse_api_port_eq, searchLabelNum_eq_none_of_not_occurs _ _ h]
    rfl
  · intro n h
    rw [parse_service_port_eq, h]
    rfl
  · intro n h
    rw [parse_api_port_eq, h]
    rfl
  · intro h
    obtain ⟨n, hn⟩ := Option.isSome_iff_exists.mp h
    rw [parse_service_port_eq, parse_service_port_eq, hn]
    rfl
  · intro h
    obtain ⟨n, hn⟩ := Option.isSome_iff_exists.mp h
    rw [parse_api_port_eq, parse_api_port_eq, hn]
    rfl
  · intro h
    refine ⟨?_, ?_, ?_, ?_⟩
    · simp only [parseInstallOutput]
      rw [if_pos h]
    · simp only [parseInstallOutput]
      rw [if_pos h]
    · simp [parse_service_port_eq]
    · simp [parse_api_port_eq]

/-- C4 witness: the amended theorem applied at the concrete outputs of the
specification examples. -/
theorem c4_witness :
    (parseInstallOutput ⟨"hello\n", "", 0⟩ "n" 62050 62051).service_port = 62050
    ∧ (parseInstallOutput ⟨c4out, "", 0⟩ "n" 62050 62051).service_port = 62060
    ∧ (parseInstallOutput ⟨c4out, "", 0⟩ "n" 62050 62051).api_port = 62061
    ∧ (parseInstallOutput ⟨c4out, "", 0⟩ "n" 62050 62051).service_port
        = (parseInstallOutput ⟨c4out, "", 0⟩ "n" 1 2).service_port
    ∧ (parseInstallOutput ⟨c4out, "", 1⟩ "n" 62050 62051).success = false := by
  have h1 := (c4_parse_output ⟨"hello\n", "", 0⟩ "n" 62050 62051 1 2).1 (by decide)
  have h2 := (c4_parse_output ⟨c4out, "", 0⟩ "n" 62050 62051 1 2).2.2.1 62060 (by decide)
  have h3 := (c4_parse_output ⟨c4out, "", 0⟩ "n" 62050 62051 1 2).2.2.2.1 62061 (by decide)
  have h4 := (c4_parse_output ⟨c4out, "", 0⟩ "n" 62050 62051 1 2).2.2.2.2.1 (by decide)
  have h5 := ((c4_parse_output ⟨c4out, "", 1⟩ "n" 62050 62051 1 2).2.2.2.2.2.2 (by decide)).1
  exact ⟨h1, h2, h3, h4, h5⟩

/-- Helper: a single manager-invoked step leaves the status, result and
error of a terminal job unchanged. -/
theorem mgrStep_terminal_frame (j j2 : Job) (h : MgrStep j j2)
    (ht : isTerminal j.status = true) :
    j2.status = j.status ∧ j2.result = j.result ∧ j2.error = j.error := by
  cases h with
  | start t j hp => rw [hp] at ht; simp [isTerminal] at ht
  | taskComplete t r j hp => rw [hp] at ht; simp [isTerminal] at ht
  | taskFail t e j hp => rw [hp] at ht; simp [isTerminal] at ht
  | wrapComplete t j =>
    unfold wrapCompleteOp
    have hr : ¬j.status = .running := by
      intro hr; rw [hr] at ht; simp [isTerminal] at ht
    rw [if_neg hr]
    exact ⟨rfl, rfl, rfl⟩
  | wrapFail t e j hp =>
    cases hp with
    | inl hr => rw [hr] at ht; simp [isTerminal] at ht
    | inr hfe =>
      refine ⟨?_, rfl, ?_⟩
      · show JobStatus.failed = j.status
        exact hfe.1.symm
      · show some e = j.error
        exact hfe.2.symm
  | cancel t j =>
    unfold cancelJobOp
    have hg : ¬(j.status = .pending ∨ j.status = .running) := by
      rintro (hp | hp) <;> (rw [hp] at ht; simp [isTerminal] at ht)
    rw [if_neg hg]
    exact ⟨rfl, rfl, rfl⟩

/-- C5 counterexample to the claim as stated: `cancel_job` explicitly
accepts a job whose status is still Pending (job_manager.py 247), so the
sequence create-then-cancel moves a job from Pending directly to
Cancelled, a transition outside the claimed set
Pending→Running→terminal. -/
theorem c5_counterexample :
    jobEx.status = .pending
    ∧ (cancelJobOp 5 jobEx).2 = true
    ∧ (cancelJobOp 5 jobEx).1.status = .cancelled
    ∧ claimTransOK .pending .cancelled = false := by
  decide

/-- C5 (amended): under any sequence of the operations start, complete,
fail, cancel as the JobManager invokes them (the `run_job` wrapper with
its only task body, and `cancel_job`), every status change is one of
Pending→Running, Pending→Cancelled (cancellation of a never-started job)
or Running→{Completed, Failed, Cancelled}; and once the status is
terminal, status, result and error are never changed again. -/
theorem c5_transitions :
    (∀ j j2 : Job, MgrStep j j2 → codeTransOK j.status j2.status = true)
    ∧ (∀ j j2 : Job, Relation.ReflTransGen MgrStep j j2 →
        isTerminal j.status = true →
        j2.status = j.status ∧ j2.result = j.result ∧ j2.error = j.error) := by
  constructor
  · intro j j2 h
    cases h with
    | start t j hp => simp [jobStart, addLog, codeTransOK, hp]
    | taskComplete t r j hp => simp [jobComplete, addLog, codeTransOK, hp]
    | taskFail t e j hp => simp [jobFail, addLog, codeTransOK, hp]
    | wrapComplete t j =>
      unfold wrapCompleteOp
      by_cases hr : j.status = .running
      · rw [if_pos hr]; simp [jobComplete, addLog, codeTransOK, hr]
      · rw [if_neg hr]; simp [codeTransOK]
    | wrapFail t e j hp =>
      cases hp with
      | inl hr => simp [jobFail, addLog, codeTransOK, hr]
      | inr hfe => simp [jobFail, addLog, codeTransOK, hfe.1]
    | cancel t j =>
      unfold cancelJobOp
      by_cases hg : j.status = .pending ∨ j.status = .running
      · rw [if_pos hg]
        cases hg with
        | inl hp => simp [jobCancel, addLog, codeTransOK, hp]
        | inr hp => simp [jobCancel, addLog, codeTransOK, hp]
      · rw [if_neg hg]; simp [codeTransOK]
  · intro j j2 h ht
    induction h with
    | refl => exact ⟨rfl, rfl, rfl⟩
    | tail hab hbc ih =>
      obtain ⟨h1, h2, h3⟩ := ih
      obtain ⟨g1, g2, g3⟩ :=
        mgrStep_terminal_frame _ _ hbc (by rw [h1]; exact ht)
      exact ⟨g1.trans h1, g2.trans h2, g3.trans h3⟩

/-- C5 witness: the amended theorem applied to the fresh job (its start
transition) and to a completed job hit by a further `cancel_job` (which
leaves it untouched). -/
theorem c5_witness :
    codeTransOK jobEx.status (jobStart 1 jobEx).status = true
    ∧ (cancelJobOp 3 completedJobEx).1.status = completedJobEx.status
    ∧ (cancelJobOp 3 completedJobEx).1.result = completedJobEx.result
    ∧ (cancelJobOp 3 completedJobEx).1.error = completedJobEx.error := by
  have h1 := c5_transitions.1 jobEx (jobStart 1 jobEx) (MgrStep.start 1 jobEx rfl)
  have h2 := c5_transitions.2 completedJobEx (cancelJobOp 3 completedJobEx).1
    (Relation.ReflTransGen.single (MgrStep.cancel 3 completedJobEx)) (by decide)
  exact ⟨h1, h2.1, h2.2.1, h2.2.2⟩

/-- Helper: `ensureCli` performs no certificate upload, only command
executions. -/
theorem ensureCli_no_upload (execB : Nat → ExecBehavior) (p : String) (m : Nat) :
    SSHEvent.upload p m ∉ cliTrace (ensureCli execB).1 := by
  cases h0 : execB 0 with
  | raises msg => simp [ensureCli, h0, cliTrace]
  | returns r0 =>
    by_cases e0 : r0.exit_code = 0
    · simp [ensureCli, h0, e0, cliTrace]
    · cases h1 : execB 1 with
      | raises msg => simp [ensureCli, h0, h1, e0, cliTrace]
      | returns r1 =>
        by_cases e1 : r1.exit_code = 0
        · cases h2 : execB 2 with
          | raises msg => simp [ensureCli, h0, h1, h2, e0, e1, cliTrace]
          | returns r2 =>
            by_cases e2 : r2.exit_code = 0
            · simp [ensureCli, h0, h1, h2, e0, e1, e2, cliTrace]
            · simp [ensureCli, h0, h1, h2, e0, e1, e2, cliTrace]
        · simp [ensureCli, h0, h1, e0, e1, cliTrace]

/-- C7 counterexample to the claim as stated: the `rm -f` cleanup of
`install_node` is not inside a try/finally (node_manager_client.py
157-161), so when the execution of the install command raises, the
temporary certificate file is never deleted: the run below uploads the
certificate, the install command raises, and no `rm -f` is ever issued. -/
theorem c7_counterexample :
    (installNodeRun "n1" "CERT" 62050 62051 "docker" none false
        c7raisingExec true).1 = .error "connection lost"
    ∧ SSHEvent.upload (certPath "n1") 0o600
        ∈ (installNodeRun "n1" "CERT" 62050 62051 "docker" none false
            c7raisingExec true).2
    ∧ SSHEvent.exec (rmCertCmd "n1")
        ∉ (installNodeRun "n1" "CERT" 62050 62051 "docker" none false
            c7raisingExec true).2 := by
  decide

/-- C7 (amended): every certificate upload of `install_node` targets the
temporary remote path with owner-read/write-only mode `0o600`; whenever
`install_node` returns an `InstallResult` (success or failure exit code)
after having uploaded the certificate, the `rm -f` cleanup was issued; and
whenever the certificate was uploaded but the cleanup never ran, the call
raised — the cleanup can only be skipped by an exception, not by a failed
install command. -/
theorem c7_cert_cleanup (name cert : String) (sp ap : Nat) (method : String)
    (inb : Option (List String)) (aps : Bool) (execB : Nat → ExecBehavior)
    (uploadOk : Bool) :
    (∀ p md, SSHEvent.upload p md
        ∈ (installNodeRun name cert sp ap method inb aps execB uploadOk).2 →
        p = certPath name ∧ md = 0o600)
    ∧ (∀ res, (installNodeRun name cert sp ap method inb aps execB uploadOk).1 = .ok res →
        SSHEvent.upload (certPath name) 0o600
          ∈ (installNodeRun name cert sp ap method inb aps execB uploadOk).2 →
        SSHEvent.exec (rmCertCmd name)
          ∈ (installNodeRun name cert sp ap method inb aps execB uploadOk).2)
    ∧ (SSHEvent.upload (certPath name) 0o600
          ∈ (installNodeRun name cert sp ap method inb aps execB uploadOk).2 →
       SSHEvent.exec (rmCertCmd name)
          ∉ (installNodeRun name cert sp ap method inb aps execB uploadOk).2 →
       ∃ msg, (installNodeRun name cert sp ap method inb aps execB uploadOk).1
          = .error msg) := by
  have hcli := ensureCli_no_upload execB
  rcases hec : ensureCli execB with ⟨ce, n⟩
  rw [hec] at hcli
  cases ce with
  | raised m tr =>
    simp only [installNodeRun, hec]
    refine ⟨?_, ?_, ?_⟩
    · intro p md hmem
      exact absurd hmem (hcli p md)
    · intro res hres
      simp at hres
    · intro hmem
      exact absurd hmem (hcli _ _)
  | bootstrapFailed tr =>
    simp only [installNodeRun, hec]
    refine ⟨?_, ?_, ?_⟩
    · intro p md hmem
      exact absurd hmem (hcli p md)
    · intro res _ hmem
      exact absurd hmem (hcli _ _)
    · intro hmem
      exact absurd hmem (hcli _ _)
  | ready tr0 =>
    simp only [installNodeRun, hec]
    by_cases hup : uploadOk
    · rw [hup]
      simp only [Bool.not_true, Bool.false_eq_true, if_false]
      cases hinst : execB n with
      | raises m =>
        refine ⟨?_, ?_, ?_⟩
        · intro p md hmem
          rcases List.mem_append.mp hmem with h | h
          · rcases List.mem_append.mp h with h2 | h2
            · exact absurd h2 (hcli p md)
            · simp at h2
              exact ⟨h2.1, h2.2⟩
          · simp at h
        · intro res hres
          simp at hres
        · intro _ hrm
          exact ⟨m, rfl⟩
      | returns r =>
        cases hrm : execB (n + 1) with
        | raises m =>
          refine ⟨?_, ?_, ?_⟩
          · intro p md hmem
            rcases List.mem_append.mp hmem with h | h
            · rcases List.mem_append.mp h with h2 | h2
              · rcases List.mem_append.mp h2 with h3 | h3
                · exact absurd h3 (hcli p md)
                · simp at h3
                  exact ⟨h3.1, h3.2⟩
              · simp at h2
            · simp at h
          · intro res hres
            simp at hres
          · intro _ hnotrm
            exfalso
            exact hnotrm (by simp [rmCertCmd])
        | returns r2 =>
          refine ⟨?_, ?_, ?_⟩
          · intro p md hmem
            rcases List.mem_append.mp hmem with h | h
            · rcases List.mem_append.mp h with h2 | h2
              · rcases List.mem_append.mp h2 with h3 | h3
                · exact absurd h3 (hcli p md)
                · simp at h3
                  exact ⟨h3.1, h3.2⟩
              · simp at h2
            · simp at h
          · intro res _ _
            simp [rmCertCmd]
          · intro _ hnotrm
            exfalso
            exact hnotrm (by simp [rmCertCmd])
    · have : uploadOk = false := by simpa using hup
      rw [this]
      simp only [Bool.not_false, if_true]
      refine ⟨?_, ?_, ?_⟩
      · intro p md hmem
        rcases List.mem_append.mp hmem with h | h
        · exact absurd h (hcli p md)
        · simp at h
          exact ⟨h.1, h.2⟩
      · intro res hres
        simp at hres
      · intro _ _
        exact ⟨"UPLOAD_FAILED", rfl⟩

/-- C7 witness: the amended theorem at a run where every command returns
exit code 0: the single upload carries mode `0o600` and the cleanup is in
the trace. -/
theorem c7_witness :
    ((installNodeRun "n1" "CERT" 62050 62051 "docker" none false allOkExec
        true).2.filter (fun e => match e with | .upload _ _ => true | _ => false)
      = [.upload (certPath "n1") 0o600])
    ∧ SSHEvent.exec (rmCertCmd "n1")
        ∈ (installNodeRun "n1" "CERT" 62050 62051 "docker" none false
            allOkExec true).2 := by
  have h := c7_cert_cleanup "n1" "CERT" 62050 62051 "docker" none false
    allOkExec true
  refine ⟨by decide, ?_⟩
  exact h.2.1 (parseInstallOutput ⟨"", "", 0⟩ "n1" 62050 62051) (by decide) (by decide)

/-- C1: in `SSHInstallService._run_installation`, every downstream step
(panel registration, local persistence, and the job result payload) uses
the service and API ports returned in the `InstallResult` of the install
step (62060/62061 below), never the originally requested ports
(62050/62051) — this part of the claim holds.  BUT the install step is
NOT invoked honoring the request auto_ports flag: the call site
(ssh_install_service.py 200-207) passes no `auto_ports` argument, so the
Python default `False` (node_manager_client.py 112) applies for every
request, and with `auto_ports=true` in the request the built CLI command
still pins `-s 62050 -x 62051`.  The sibling implementation
`PanelService._run_ssh_installation` (panel_service.py 850-858) passes
`auto_ports=request.auto_ports`, which shows the omission is a slip. -/
theorem c1_auto_ports_eval :
    (∀ (req : InstallRequest) (pid : Nat) (host : String) (spid : Nat)
       (tok : Bool) (inst : InstallCall → InstallResult) (nid : Nat),
       (runInstallation req pid host spid tok inst nid).1.auto_ports = false)
    ∧ c1req.auto_ports = true
    ∧ (runInstallation c1req 1 "9.9.9.9" 7 true c1install 42).2.1
        = "marzban-node-manager install -n node1 -c /tmp/ssl_cert_node1.pem -m docker -y -s 62050 -x 62051"
    ∧ (runInstallation c1req 1 "9.9.9.9" 7 true c1install 42).2.2
        = .ok ({ panel_id := 1, node_name := "node1", address := "1.2.3.4",
                 service_port := 62060, api_port := 62061,
                 ssh_profile_id := some 7 },
               some { name := "node1", address := "1.2.3.4", port := 62060,
                      api_port := 62061 },
               { node_id := 42, node_name := "node1", address := "1.2.3.4",
                 service_port := 62060, api_port := 62061,
                 ssh_profile_id := 7 }) := by
  refine ⟨?_, rfl, by decide, by decide⟩
  intro req pid host spid tok inst nid
  rfl

end Marzban
